import Mathlib

/-!
Shallow embedding of the ADS1115 I2C character-device driver and its
command-line demo program.

The driver source consists of:
* `ads1115_read_single_channel` — the conversion engine: writes the config
  word (byte-swapped) to the config register, sleeps 15 ms, issues a bare
  pointer-select byte write, reads the conversion word and byte-swaps it.
* `ads1115_ioctl` — the dispatcher: checks the client handle, maps the four
  ioctl commands to mux fields, runs the engine, applies a heuristic error
  check, and copies the result to user space.
* `demo_ads1115.c` — a user-space program reading AIN0..AIN3 in order.

Machine integers are modelled as `Nat` for the unsigned 16-bit register
words and `Int` for the C `int`/`s16` values, with truncation to `s16`
made explicit (`s16ofInt`).  The I2C bus is modelled as an oracle giving
the return status of each SMBus primitive, and each engine/dispatcher run
additionally returns the list of bus operations it performed, in order.
-/

namespace ADS1115

/-- Register address of the ADC result register (`0x00` in the source). -/
def ADS1115_REG_POINTER_CONVERSION : Nat := 0x00

/-- Register address of the configuration register (`0x01` in the source). -/
def ADS1115_REG_POINTER_CONFIG : Nat := 0x01

/-- Start-single-conversion bit of the config register. -/
def ADS1115_CONFIG_OS_SINGLE : Nat := 0x8000

/-- Bit offset of the MUX field in the config register. -/
def ADS1115_CONFIG_MUX_OFFSET : Nat := 12

/-- Bit offset of the PGA field in the config register. -/
def ADS1115_CONFIG_PGA_OFFSET : Nat := 9

/-- Single-shot mode bit of the config register. -/
def ADS1115_CONFIG_MODE_SINGLE : Nat := 0x0100

/-- Bit offset of the data-rate field in the config register. -/
def ADS1115_CONFIG_DR_OFFSET : Nat := 5

/-- MUX field selecting channel AIN0 against GND. -/
def ADS1115_MUX_AIN0_GND : Nat := 0x04 <<< ADS1115_CONFIG_MUX_OFFSET

/-- MUX field selecting channel AIN1 against GND. -/
def ADS1115_MUX_AIN1_GND : Nat := 0x05 <<< ADS1115_CONFIG_MUX_OFFSET

/-- MUX field selecting channel AIN2 against GND. -/
def ADS1115_MUX_AIN2_GND : Nat := 0x06 <<< ADS1115_CONFIG_MUX_OFFSET

/-- MUX field selecting channel AIN3 against GND. -/
def ADS1115_MUX_AIN3_GND : Nat := 0x07 <<< ADS1115_CONFIG_MUX_OFFSET

/-- PGA field for the ±4.096 V gain range. -/
def ADS1115_PGA_4_096V : Nat := 0x01 <<< ADS1115_CONFIG_PGA_OFFSET

/-- Data-rate field for 128 samples per second. -/
def ADS1115_DR_128SPS : Nat := 0x04 <<< ADS1115_CONFIG_DR_OFFSET

/-- Base configuration word: start single conversion, ±4.096 V gain,
single-shot mode, 128 SPS, comparator disabled (`0x0003`). -/
def ADS1115_CONFIG_BASE : Nat :=
  ADS1115_CONFIG_OS_SINGLE ||| ADS1115_PGA_4_096V ||| ADS1115_CONFIG_MODE_SINGLE |||
    ADS1115_DR_128SPS ||| 0x0003

/-- errno value `EIO` (5); the driver returns its negation on I2C failure. -/
def EIO_errno : Int := 5

/-- errno value `ETIMEDOUT` (110). -/
def ETIMEDOUT_errno : Int := 110

/-- errno value `ENXIO` (6). -/
def ENXIO_errno : Int := 6

/-- errno value `EBUSY` (16). -/
def EBUSY_errno : Int := 16

/-- errno value `ENODEV` (19); returned when no I2C client is attached. -/
def ENODEV_errno : Int := 19

/-- errno value `EINVAL` (22); returned for an unknown ioctl command. -/
def EINVAL_errno : Int := 22

/-- errno value `EFAULT` (14); returned when `copy_to_user` fails. -/
def EFAULT_errno : Int := 14

/-- The Linux 16-bit byte swap `swab16`, as used by the driver on every
word written to or read from the device:
`((x & 0x00ff) << 8) | ((x & 0xff00) >> 8)`. -/
def swab16 (x : Nat) : Nat := ((x &&& 0x00ff) <<< 8) ||| ((x &&& 0xff00) >>> 8)

/-- Truncation of a C `int` to `s16` (signed 16-bit two's complement),
made explicit wherever the source assigns or returns through an `s16`. -/
def s16ofInt (v : Int) : Int :=
  if v % 65536 < 32768 then v % 65536 else v % 65536 - 65536

/-- The I2C bus transport, modelled as an oracle for the return value of
each SMBus primitive the driver uses.  `writeWordRet reg val` is the status
returned by `i2c_smbus_write_word_data`, `writeByteRet reg` the status of
`i2c_smbus_write_byte`, and `readWordRet reg` the value returned by
`i2c_smbus_read_word_data` (a word `0..0xFFFF` on success, a negative errno
on failure). -/
structure Bus where
  writeWordRet : Nat → Nat → Int
  writeByteRet : Nat → Int
  readWordRet : Nat → Int

/-- One observable step performed by the driver against the bus or the
clock, recorded in program order. -/
inductive BusEvent where
  | writeWord (reg : Nat) (value : Nat)
  | sleep (ms : Nat)
  | writeByte (reg : Nat)
  | readWord (reg : Nat)
deriving DecidableEq, Repr

/-- The conversion engine `ads1115_read_single_channel`, returning the list
of bus operations performed (in order) together with the `s16` return
value.  Mirrors the source line by line: null-client check returning
`-EIO`; config write of `swab16(ADS1115_CONFIG_BASE | mux_config)` with
early return of the status on failure; `msleep(15)`; pointer-select byte
write with early return on failure; word read assigned to an `s16`
variable (truncation!) with early return when that variable is negative;
otherwise return `swab16(raw_val)` truncated to `s16`. -/
def ads1115_read_single_channel (client : Option Bus) (mux_config : Nat) :
    List BusEvent × Int :=
  match client with
  | none => ([], -EIO_errno)
  | some bus =>
    let config_val := ADS1115_CONFIG_BASE ||| mux_config
    let ret := bus.writeWordRet ADS1115_REG_POINTER_CONFIG (swab16 config_val)
    let t1 := [BusEvent.writeWord ADS1115_REG_POINTER_CONFIG (swab16 config_val)]
    if ret < 0 then (t1, s16ofInt ret)
    else
      let t2 := t1 ++ [BusEvent.sleep 15, BusEvent.writeByte ADS1115_REG_POINTER_CONVERSION]
      let ret2 := bus.writeByteRet ADS1115_REG_POINTER_CONVERSION
      if ret2 < 0 then (t2, s16ofInt ret2)
      else
        let t3 := t2 ++ [BusEvent.readWord ADS1115_REG_POINTER_CONVERSION]
        let raw_val := s16ofInt (bus.readWordRet ADS1115_REG_POINTER_CONVERSION)
        if raw_val < 0 then (t3, raw_val)
        else (t3, s16ofInt (swab16 raw_val.toNat))

/-- The Linux `_IOR(type, nr, size)` ioctl command encoding:
direction `_IOC_READ = 2` in bits 30-31, size in bits 16-29, type in
bits 8-15, command number in bits 0-7. -/
def IOR (ty nr size : Nat) : Nat := (2 <<< 30) ||| (size <<< 16) ||| (ty <<< 8) ||| nr

/-- The ioctl magic character `a` (ASCII `0x61`). -/
def ADS1115_IOCTL_MAGIC : Nat := 0x61

/-- ioctl command reading channel AIN0 (`_IOR('a', 0, s16)`). -/
def ADS1115_IOCTL_READ_AIN0 : Nat := IOR ADS1115_IOCTL_MAGIC 0 2

/-- ioctl command reading channel AIN1 (`_IOR('a', 1, s16)`). -/
def ADS1115_IOCTL_READ_AIN1 : Nat := IOR ADS1115_IOCTL_MAGIC 1 2

/-- ioctl command reading channel AIN2 (`_IOR('a', 2, s16)`). -/
def ADS1115_IOCTL_READ_AIN2 : Nat := IOR ADS1115_IOCTL_MAGIC 2 2

/-- ioctl command reading channel AIN3 (`_IOR('a', 3, s16)`). -/
def ADS1115_IOCTL_READ_AIN3 : Nat := IOR ADS1115_IOCTL_MAGIC 3 2

/-- The `switch (cmd)` of `ads1115_ioctl`: the mux field passed to the
engine for each of the four read commands, `none` for the default case. -/
def muxForCmd (cmd : Nat) : Option Nat :=
  if cmd = ADS1115_IOCTL_READ_AIN0 then some ADS1115_MUX_AIN0_GND
  else if cmd = ADS1115_IOCTL_READ_AIN1 then some ADS1115_MUX_AIN1_GND
  else if cmd = ADS1115_IOCTL_READ_AIN2 then some ADS1115_MUX_AIN2_GND
  else if cmd = ADS1115_IOCTL_READ_AIN3 then some ADS1115_MUX_AIN3_GND
  else none

/-- The heuristic error classification of `ads1115_ioctl`:
`data < -1000 && (data == -EIO || data == -ETIMEDOUT || data == -ENXIO || data == -EBUSY)`. -/
def errCheck (data : Int) : Bool :=
  decide (data < -1000) &&
    (decide (data = -EIO_errno) || decide (data = -ETIMEDOUT_errno) ||
      decide (data = -ENXIO_errno) || decide (data = -EBUSY_errno))

/-- The ioctl handler `ads1115_ioctl`.  `ads1115_client` is the global
client set at probe time (`none` when not initialized), `copy_ok` models
whether `copy_to_user` succeeds.  Returns the bus operations performed,
the `long` return value of the ioctl, and the sample delivered to user
space (`none` when nothing was copied). -/
def ads1115_ioctl (ads1115_client : Option Bus) (cmd : Nat) (copy_ok : Bool) :
    List BusEvent × Int × Option Int :=
  match ads1115_client with
  | none => ([], -ENODEV_errno, none)
  | some bus =>
    match muxForCmd cmd with
    | none => ([], -EINVAL_errno, none)
    | some mux =>
      let r := ads1115_read_single_channel (some bus) mux
      if errCheck r.2 then (r.1, r.2, none)
      else if copy_ok then (r.1, 0, some r.2)
      else (r.1, -EFAULT_errno, none)

/-- The mux field the dispatcher selects for each valid channel selector
0-3 (the four `ADS1115_MUX_AINn_GND` cases of the switch). -/
def muxOfChannel : Fin 4 → Nat
  | ⟨0, _⟩ => ADS1115_MUX_AIN0_GND
  | ⟨1, _⟩ => ADS1115_MUX_AIN1_GND
  | ⟨2, _⟩ => ADS1115_MUX_AIN2_GND
  | ⟨3, _⟩ => ADS1115_MUX_AIN3_GND

/-- The configuration word the engine builds for channel `s`:
`ADS1115_CONFIG_BASE | mux` exactly as computed at the top of
`ads1115_read_single_channel` for the mux field of channel `s`. -/
def buildConfig (s : Fin 4) : Nat := ADS1115_CONFIG_BASE ||| muxOfChannel s

/-- The full in-order bus trace of one complete acquisition with mux field
`mux`: config write, 15 ms sleep, pointer-select write, result read. -/
def fullTrace (mux : Nat) : List BusEvent :=
  [BusEvent.writeWord ADS1115_REG_POINTER_CONFIG (swab16 (ADS1115_CONFIG_BASE ||| mux)),
   BusEvent.sleep 15,
   BusEvent.writeByte ADS1115_REG_POINTER_CONVERSION,
   BusEvent.readWord ADS1115_REG_POINTER_CONVERSION]

/-- The demo program's ADC-to-voltage conversion
`(adc_value * 4.096) / 32768.0`, modelled in exact rational arithmetic
(`4.096 = 4096/1000`). -/
def adc_to_vol (adc_value : Int) : Rat := ((adc_value : Rat) * (4096 / 1000)) / 32768

/-- One observable step of the demo program: an ioctl issued for a
channel, a successful readout printed (label, raw sample, voltage), a
per-channel failure reported via `perror`, or the device being closed. -/
inductive DemoEvent where
  | ioctlCall (channel : Nat)
  | readout (channel : Nat) (adc : Int) (volt : Rat)
  | reportFail (channel : Nat)
  | closeDev
deriving DecidableEq

/-- The straight-line `main` of `demo_ads1115.c` after a successful
`open`: four sequential ioctls for AIN0..AIN3, each checked before the
next; on the first failure (modelled as `Except.error errno`) it reports
the failure, closes the device and returns `errno`; on success it prints
each readout and returns 0. -/
def demo_main (res : Fin 4 → Except Nat Int) : List DemoEvent × Nat :=
  match res 0 with
  | Except.error e => ([DemoEvent.ioctlCall 0, DemoEvent.reportFail 0, DemoEvent.closeDev], e)
  | Except.ok d0 =>
  match res 1 with
  | Except.error e =>
      ([DemoEvent.ioctlCall 0, DemoEvent.readout 0 d0 (adc_to_vol d0),
        DemoEvent.ioctlCall 1, DemoEvent.reportFail 1, DemoEvent.closeDev], e)
  | Except.ok d1 =>
  match res 2 with
  | Except.error e =>
      ([DemoEvent.ioctlCall 0, DemoEvent.readout 0 d0 (adc_to_vol d0),
        DemoEvent.ioctlCall 1, DemoEvent.readout 1 d1 (adc_to_vol d1),
        DemoEvent.ioctlCall 2, DemoEvent.reportFail 2, DemoEvent.closeDev], e)
  | Except.ok d2 =>
  match res 3 with
  | Except.error e =>
      ([DemoEvent.ioctlCall 0, DemoEvent.readout 0 d0 (adc_to_vol d0),
        DemoEvent.ioctlCall 1, DemoEvent.readout 1 d1 (adc_to_vol d1),
        DemoEvent.ioctlCall 2, DemoEvent.readout 2 d2 (adc_to_vol d2),
        DemoEvent.ioctlCall 3, DemoEvent.reportFail 3, DemoEvent.closeDev], e)
  | Except.ok d3 =>
      ([DemoEvent.ioctlCall 0, DemoEvent.readout 0 d0 (adc_to_vol d0),
        DemoEvent.ioctlCall 1, DemoEvent.readout 1 d1 (adc_to_vol d1),
        DemoEvent.ioctlCall 2, DemoEvent.readout 2 d2 (adc_to_vol d2),
        DemoEvent.ioctlCall 3, DemoEvent.readout 3 d3 (adc_to_vol d3),
        DemoEvent.closeDev], 0)

/-- A bus on which the config write fails with `-EIO` (every word write
returns `-5`) while the other primitives succeed. -/
def busConfigWriteFail : Bus where
  writeWordRet := fun _ _ => -EIO_errno
  writeByteRet := fun _ => 0
  readWordRet := fun _ => 0

/-- A bus on which every operation succeeds and the conversion register
read yields the wire word `0xFFFF`. -/
def busReadFFFF : Bus where
  writeWordRet := fun _ _ => 0
  writeByteRet := fun _ => 0
  readWordRet := fun _ => 0xFFFF

/-- A bus on which every operation succeeds and the conversion register
read yields the wire word `0x8001` (sign bit set, not byte-order
palindromic). -/
def busRead8001 : Bus where
  writeWordRet := fun _ _ => 0
  writeByteRet := fun _ => 0
  readWordRet := fun _ => 0x8001

/-- A bus on which every operation succeeds and the conversion register
read yields the wire word `0x401F` (which byte-swaps to `0x1F40 = 8000`). -/
def busAllOk : Bus where
  writeWordRet := fun _ _ => 0
  writeByteRet := fun _ => 0
  readWordRet := fun _ => 0x401F

/-- Demo ioctl outcomes where channel 0 succeeds with sample 100 and
every later channel fails with errno 5. -/
def demoResFailAt1 : Fin 4 → Except Nat Int :=
  fun k => if k.val = 0 then Except.ok 100 else Except.error 5

/-- The heuristic error check of `ads1115_ioctl` is dead code: it demands
`data < -1000` together with equality to one of four errno negations, all
of which are `≥ -110`. -/
theorem errCheck_false (d : Int) : errCheck d = false := by
  by_cases h : d < -1000
  · have e1 : decide (d = -EIO_errno) = false := decide_eq_false (by unfold EIO_errno; omega)
    have e2 : decide (d = -ETIMEDOUT_errno) = false :=
      decide_eq_false (by unfold ETIMEDOUT_errno; omega)
    have e3 : decide (d = -ENXIO_errno) = false := decide_eq_false (by unfold ENXIO_errno; omega)
    have e4 : decide (d = -EBUSY_errno) = false := decide_eq_false (by unfold EBUSY_errno; omega)
    unfold errCheck
    rw [e1, e2, e3, e4]
    simp
  · unfold errCheck
    rw [decide_eq_false h]
    simp

theorem and_255 (x : Nat) : x &&& 255 = x % 256 := by
  have h := Nat.and_pow_two_sub_one_eq_mod x 8
  norm_num at h
  exact h

theorem and_ff00_shr8 (x : Nat) : (x &&& 0xff00) >>> 8 = (x / 256) % 256 := by
  apply Nat.eq_of_testBit_eq
  intro k
  rw [Nat.testBit_shiftRight, Nat.testBit_land,
    show (0xff00 : Nat) = (2 ^ 8 - 1) <<< 8 by norm_num [Nat.shiftLeft_eq],
    Nat.testBit_shiftLeft, Nat.testBit_two_pow_sub_one,
    show (256 : Nat) = 2 ^ 8 by norm_num,
    Nat.testBit_mod_two_pow, ← Nat.shiftRight_eq_div_pow, Nat.testBit_shiftRight]
  have h1 : 8 ≤ 8 + k := Nat.le_add_right 8 k
  simp [h1, Nat.add_sub_cancel_left, Bool.and_comm]

theorem lor_shl8_add (a b : Nat) (hb : b < 256) : (a <<< 8) ||| b = a * 256 + b := by
  have hdiv : ((a <<< 8) ||| b) / 256 = a := by
    rw [show (256 : Nat) = 2 ^ 8 by norm_num, ← Nat.shiftRight_eq_div_pow]
    apply Nat.eq_of_testBit_eq
    intro k
    rw [Nat.testBit_shiftRight, Nat.testBit_lor, Nat.testBit_shiftLeft]
    have hbk : b.testBit (8 + k) = false :=
      Nat.testBit_eq_false_of_lt (lt_of_lt_of_le hb (by
        calc (256 : Nat) = 2 ^ 8 := by norm_num
          _ ≤ 2 ^ (8 + k) := Nat.pow_le_pow_right (by norm_num) (Nat.le_add_right 8 k)))
    have h1 : 8 ≤ 8 + k := Nat.le_add_right 8 k
    simp [hbk, h1, Nat.add_sub_cancel_left]
  have hmod : ((a <<< 8) ||| b) % 256 = b := by
    rw [← and_255]
    apply Nat.eq_of_testBit_eq
    intro k
    rw [Nat.testBit_land, Nat.testBit_lor, Nat.testBit_shiftLeft,
      show (255 : Nat) = 2 ^ 8 - 1 by norm_num, Nat.testBit_two_pow_sub_one]
    by_cases hk : k < 8
    · have hk2 : ¬ 8 ≤ k := by omega
      simp [hk, hk2]
    · have hbf : b.testBit k = false :=
        Nat.testBit_eq_false_of_lt (lt_of_lt_of_le hb (by
          calc (256 : Nat) = 2 ^ 8 := by norm_num
            _ ≤ 2 ^ k := Nat.pow_le_pow_right (by norm_num) (by omega)))
      simp [hk, hbf]
  omega

/-- Arithmetic characterization of the 16-bit byte swap. -/
theorem swab16_eq (x : Nat) : swab16 x = (x % 256) * 256 + (x / 256) % 256 := by
  unfold swab16
  rw [and_255, and_ff00_shr8]
  exact lor_shl8_add _ _ (Nat.mod_lt _ (by norm_num))

/-- Evaluation of the conversion engine when both writes succeed: the trace
is the full four-step sequence, and the result is the `s16`-truncated word
read, byte-swapped only when that truncation is nonnegative. -/
theorem engine_eval (bus : Bus) (mux : Nat)
    (hw : 0 ≤ bus.writeWordRet ADS1115_REG_POINTER_CONFIG (swab16 (ADS1115_CONFIG_BASE ||| mux)))
    (hb : 0 ≤ bus.writeByteRet ADS1115_REG_POINTER_CONVERSION) :
    ads1115_read_single_channel (some bus) mux =
      (fullTrace mux,
        if s16ofInt (bus.readWordRet ADS1115_REG_POINTER_CONVERSION) < 0 then
          s16ofInt (bus.readWordRet ADS1115_REG_POINTER_CONVERSION)
        else s16ofInt (swab16 (s16ofInt (bus.readWordRet ADS1115_REG_POINTER_CONVERSION)).toNat)) := by
  simp only [ads1115_read_single_channel]
  rw [if_neg (not_lt.mpr hw), if_neg (not_lt.mpr hb)]
  split <;> rfl

/-- Evaluation of the ioctl dispatcher for a recognized command: the
heuristic error check never fires, so the result is always delivered to
user space (or `-EFAULT` when the copy fails). -/
theorem ioctl_eval (bus : Bus) (cmd mux : Nat) (hm : muxForCmd cmd = some mux) (copy_ok : Bool) :
    ads1115_ioctl (some bus) cmd copy_ok =
      if copy_ok then
        ((ads1115_read_single_channel (some bus) mux).1, 0,
          some (ads1115_read_single_channel (some bus) mux).2)
      else ((ads1115_read_single_channel (some bus) mux).1, -EFAULT_errno, none) := by
  simp only [ads1115_ioctl, hm]
  rw [errCheck_false]
  cases copy_ok <;> simp

/-- C1: when the config-register write fails with bus status `-EIO`, the
engine does return immediately — its trace is the single config write, with
no settle sleep, no pointer-select write and no result read — but the
caller-visible outcome is NOT the error: the heuristic error check never
fires, so the ioctl copies `-5` to user space as the sample and returns 0
instead of the negative status. -/
theorem config_write_error_swallowed :
    ads1115_read_single_channel (some busConfigWriteFail) ADS1115_MUX_AIN0_GND
      = ([BusEvent.writeWord ADS1115_REG_POINTER_CONFIG 0x83C3], -EIO_errno)
    ∧ ads1115_ioctl (some busConfigWriteFail) ADS1115_IOCTL_READ_AIN0 true
      = ([BusEvent.writeWord ADS1115_REG_POINTER_CONFIG 0x83C3], 0, some (-EIO_errno)) := by
  constructor <;> decide

/-- C2: for every channel selector `s` in 0..3, the configuration word the
engine builds equals the fixed base word OR'd with the mux field
`(4+s) <<< 12`; the mux bits of the word are exactly `(4+s) <<< 12`, every
bit outside the mux field equals the base word independently of `s`, and
the base word is `0x8383` (start-single `0x8000`, PGA ±4.096 V `0x0200`,
single-shot `0x0100`, 128 SPS `0x0080`, comparator disable `0x0003`). -/
theorem buildConfig_mux_and_base : ∀ s : Fin 4,
    buildConfig s = ADS1115_CONFIG_BASE ||| ((4 + s.val) <<< 12)
    ∧ buildConfig s &&& 0x7000 = (4 + s.val) <<< 12
    ∧ buildConfig s &&& 0x8FFF = ADS1115_CONFIG_BASE
    ∧ ADS1115_CONFIG_BASE = 0x8383 := by decide

/-- C3: if every bus operation succeeds and the conversion register read
yields the word `0xFFFF`, the ioctl returns 0 (success) and delivers the
sample `-1` to user space, which is exactly the byte-order decode of
`0xFFFF`; a legitimately negative decoded sample is not classified as an
error. -/
theorem read_ffff_minus_one_success (bus : Bus)
    (hw : ∀ r v, 0 ≤ bus.writeWordRet r v)
    (hb : ∀ r, 0 ≤ bus.writeByteRet r)
    (hr : bus.readWordRet ADS1115_REG_POINTER_CONVERSION = 0xFFFF)
    (cmd mux : Nat) (hm : muxForCmd cmd = some mux) :
    (ads1115_ioctl (some bus) cmd true).2.1 = 0
    ∧ (ads1115_ioctl (some bus) cmd true).2.2 = some (-1)
    ∧ s16ofInt (swab16 0xFFFF) = -1 := by
  have hres : ads1115_ioctl (some bus) cmd true = (fullTrace mux, 0, some (-1)) := by
    rw [ioctl_eval bus cmd mux hm true, if_pos rfl, engine_eval bus mux (hw _ _) (hb _), hr]
    have hval : s16ofInt 0xFFFF = -1 := by decide
    rw [hval, if_pos (by decide)]
  rw [hres]
  exact ⟨rfl, rfl, by decide⟩

/-- C3 witness: concrete run on a bus whose reads yield `0xFFFF`. -/
theorem read_ffff_minus_one_success_witness :
    (ads1115_ioctl (some busReadFFFF) ADS1115_IOCTL_READ_AIN0 true).2.1 = 0
    ∧ (ads1115_ioctl (some busReadFFFF) ADS1115_IOCTL_READ_AIN0 true).2.2 = some (-1)
    ∧ s16ofInt (swab16 0xFFFF) = -1 :=
  read_ffff_minus_one_success busReadFFFF (fun _ _ => le_refl 0) (fun _ => le_refl 0) rfl
    ADS1115_IOCTL_READ_AIN0 ADS1115_MUX_AIN0_GND (by decide)

/-- C4 counterexample: reading the word `0x8001` (transport read succeeds)
makes the engine return `-32767`, the plain `s16` truncation of the word,
not its byte-swapped decode `384`: the byte swap is NOT applied to every
successfully read word. -/
theorem engine_swab_counterexample :
    (ads1115_read_single_channel (some busRead8001) ADS1115_MUX_AIN0_GND).2 = -32767
    ∧ s16ofInt (swab16 0x8001) = 384
    ∧ (ads1115_read_single_channel (some busRead8001) ADS1115_MUX_AIN0_GND).2
        ≠ s16ofInt (swab16 0x8001) := by decide

/-- C4 amended: for every 16-bit word `w` successfully read from the
conversion register, the engine returns the byte-swapped decode of `w`
exactly when the sign bit of `w` is clear (`w < 0x8000`); when the sign
bit is set, the `s16` truncation of `w` is negative, the read-error branch
triggers, and the engine returns that truncation without byte swap. -/
theorem engine_swab_only_on_clear_sign_bit (bus : Bus) (mux : Nat)
    (hw : 0 ≤ bus.writeWordRet ADS1115_REG_POINTER_CONFIG (swab16 (ADS1115_CONFIG_BASE ||| mux)))
    (hb : 0 ≤ bus.writeByteRet ADS1115_REG_POINTER_CONVERSION)
    (w : Nat) (hwlt : w < 65536)
    (hr : bus.readWordRet ADS1115_REG_POINTER_CONVERSION = (w : Int)) :
    (ads1115_read_single_channel (some bus) mux).2 =
      if w < 0x8000 then s16ofInt (swab16 w) else s16ofInt (w : Int) := by
  rw [engine_eval bus mux hw hb, hr]
  dsimp only
  have hm : (w : Int) % 65536 = (w : Int) := by omega
  by_cases h : w < 32768
  · have h0 : s16ofInt (w : Int) = (w : Int) := by
      unfold s16ofInt
      rw [hm, if_pos (by exact_mod_cast h)]
    rw [if_neg (by rw [h0]; omega), if_pos h, h0]
    norm_num
  · have h0 : s16ofInt (w : Int) = (w : Int) - 65536 := by
      unfold s16ofInt
      rw [hm, if_neg (by omega)]
    rw [if_pos (by rw [h0]; omega), if_neg h]

/-- C4 witness: instantiation of the amended statement at word `0x8001`. -/
theorem engine_swab_only_on_clear_sign_bit_witness :
    (ads1115_read_single_channel (some busRead8001) ADS1115_MUX_AIN0_GND).2 =
      if (0x8001 : Nat) < 0x8000 then s16ofInt (swab16 0x8001)
      else s16ofInt ((0x8001 : Nat) : Int) :=
  engine_swab_only_on_clear_sign_bit busRead8001 ADS1115_MUX_AIN0_GND (by decide) (by decide)
    0x8001 (by decide) rfl

/-- C5: the byte-order transform is a round-trip: applying the 16-bit byte
swap twice returns every 16-bit value unchanged. -/
theorem swab16_roundtrip : ∀ x : Fin 65536, swab16 (swab16 x.val) = x.val := by
  intro x
  have hx := x.isLt
  rw [swab16_eq, swab16_eq]
  have h1 : x.val / 256 < 256 := by omega
  rw [Nat.mod_eq_of_lt h1]
  have h3 : (x.val % 256 * 256 + x.val / 256) % 256 = x.val / 256 := by omega
  have h4 : (x.val % 256 * 256 + x.val / 256) / 256 = x.val % 256 := by omega
  rw [h3, h4]
  omega

/-- C6: for every ioctl command other than the four read commands (e.g.
the command for selector 4), the ioctl returns `-EINVAL`, performs zero
bus operations, and delivers nothing to user space: the conversion engine
is never invoked. -/
theorem ioctl_invalid_cmd (bus : Bus) (cmd : Nat) (copy_ok : Bool)
    (h0 : cmd ≠ ADS1115_IOCTL_READ_AIN0) (h1 : cmd ≠ ADS1115_IOCTL_READ_AIN1)
    (h2 : cmd ≠ ADS1115_IOCTL_READ_AIN2) (h3 : cmd ≠ ADS1115_IOCTL_READ_AIN3) :
    ads1115_ioctl (some bus) cmd copy_ok = ([], -EINVAL_errno, none) := by
  have hm : muxForCmd cmd = none := by simp [muxForCmd, h0, h1, h2, h3]
  simp [ads1115_ioctl, hm]

/-- C6 witness: the command encoding selector 4 (`_IOR('a', 4, s16)`) on a
healthy bus. -/
theorem ioctl_invalid_cmd_witness :
    ads1115_ioctl (some busAllOk) (IOR ADS1115_IOCTL_MAGIC 4 2) true
      = ([], -EINVAL_errno, none) :=
  ioctl_invalid_cmd busAllOk (IOR ADS1115_IOCTL_MAGIC 4 2) true
    (by decide) (by decide) (by decide) (by decide)

/-- C7: with no I2C client attached, every ioctl request returns `-ENODEV`
before any bus activity: the trace is empty and nothing reaches user
space, whatever the command. -/
theorem ioctl_no_client (cmd : Nat) (copy_ok : Bool) :
    ads1115_ioctl none cmd copy_ok = ([], -ENODEV_errno, none) := rfl

/-- C8: whenever both writes succeed and the result read completes, the
acquisition performs exactly these steps in this order, none skipped or
reordered: write of the byte-order-encoded config word to the config
register, a fixed 15 ms sleep (not a ready-bit poll), a bare
pointer-select byte write to the conversion register, and one word read
from the conversion register. -/
theorem acquisition_sequence (bus : Bus) (mux : Nat)
    (hw : 0 ≤ bus.writeWordRet ADS1115_REG_POINTER_CONFIG (swab16 (ADS1115_CONFIG_BASE ||| mux)))
    (hb : 0 ≤ bus.writeByteRet ADS1115_REG_POINTER_CONVERSION)
    (hr : 0 ≤ bus.readWordRet ADS1115_REG_POINTER_CONVERSION) :
    (ads1115_read_single_channel (some bus) mux).1 =
      [BusEvent.writeWord ADS1115_REG_POINTER_CONFIG (swab16 (ADS1115_CONFIG_BASE ||| mux)),
       BusEvent.sleep 15,
       BusEvent.writeByte ADS1115_REG_POINTER_CONVERSION,
       BusEvent.readWord ADS1115_REG_POINTER_CONVERSION] := by
  rw [engine_eval bus mux hw hb]
  split <;> rfl

/-- C8 witness: the full sequence on a healthy bus for channel AIN1. -/
theorem acquisition_sequence_witness :
    (ads1115_read_single_channel (some busAllOk) ADS1115_MUX_AIN1_GND).1 =
      [BusEvent.writeWord ADS1115_REG_POINTER_CONFIG
          (swab16 (ADS1115_CONFIG_BASE ||| ADS1115_MUX_AIN1_GND)),
       BusEvent.sleep 15,
       BusEvent.writeByte ADS1115_REG_POINTER_CONVERSION,
       BusEvent.readWord ADS1115_REG_POINTER_CONVERSION] :=
  acquisition_sequence busAllOk ADS1115_MUX_AIN1_GND (by decide) (by decide) (by decide)

/-- C9: the demo reads AIN0, AIN1, AIN2, AIN3 sequentially in that order,
printing for each the label, the raw signed sample and the voltage
`sample * 4.096 / 32768.0`; on the first per-channel failure it reports
that channel's error, closes the device and exits with the (non-zero)
errno without issuing an ioctl for any remaining channel. -/
theorem demo_sequential_short_circuit (res : Fin 4 → Except Nat Int) :
    (∀ d0 d1 d2 d3, res 0 = Except.ok d0 → res 1 = Except.ok d1 →
      res 2 = Except.ok d2 → res 3 = Except.ok d3 →
      demo_main res = ([DemoEvent.ioctlCall 0, DemoEvent.readout 0 d0 (adc_to_vol d0),
        DemoEvent.ioctlCall 1, DemoEvent.readout 1 d1 (adc_to_vol d1),
        DemoEvent.ioctlCall 2, DemoEvent.readout 2 d2 (adc_to_vol d2),
        DemoEvent.ioctlCall 3, DemoEvent.readout 3 d3 (adc_to_vol d3),
        DemoEvent.closeDev], 0))
    ∧ (∀ e, 0 < e → res 0 = Except.error e →
      demo_main res = ([DemoEvent.ioctlCall 0, DemoEvent.reportFail 0, DemoEvent.closeDev], e)
      ∧ e ≠ 0)
    ∧ (∀ d0 e, 0 < e → res 0 = Except.ok d0 → res 1 = Except.error e →
      demo_main res = ([DemoEvent.ioctlCall 0, DemoEvent.readout 0 d0 (adc_to_vol d0),
        DemoEvent.ioctlCall 1, DemoEvent.reportFail 1, DemoEvent.closeDev], e)
      ∧ e ≠ 0)
    ∧ (∀ d0 d1 e, 0 < e → res 0 = Except.ok d0 → res 1 = Except.ok d1 →
      res 2 = Except.error e →
      demo_main res = ([DemoEvent.ioctlCall 0, DemoEvent.readout 0 d0 (adc_to_vol d0),
        DemoEvent.ioctlCall 1, DemoEvent.readout 1 d1 (adc_to_vol d1),
        DemoEvent.ioctlCall 2, DemoEvent.reportFail 2, DemoEvent.closeDev], e)
      ∧ e ≠ 0)
    ∧ (∀ d0 d1 d2 e, 0 < e → res 0 = Except.ok d0 → res 1 = Except.ok d1 →
      res 2 = Except.ok d2 → res 3 = Except.error e →
      demo_main res = ([DemoEvent.ioctlCall 0, DemoEvent.readout 0 d0 (adc_to_vol d0),
        DemoEvent.ioctlCall 1, DemoEvent.readout 1 d1 (adc_to_vol d1),
        DemoEvent.ioctlCall 2, DemoEvent.readout 2 d2 (adc_to_vol d2),
        DemoEvent.ioctlCall 3, DemoEvent.reportFail 3, DemoEvent.closeDev], e)
      ∧ e ≠ 0) := by
  refine ⟨?_, ?_, ?_, ?_, ?_⟩
  · intro d0 d1 d2 d3 h0 h1 h2 h3
    simp [demo_main, h0, h1, h2, h3]
  · intro e he h0
    exact ⟨by simp [demo_main, h0], by omega⟩
  · intro d0 e he h0 h1
    exact ⟨by simp [demo_main, h0, h1], by omega⟩
  · intro d0 d1 e he h0 h1 h2
    exact ⟨by simp [demo_main, h0, h1, h2], by omega⟩
  · intro d0 d1 d2 e he h0 h1 h2 h3
    exact ⟨by simp [demo_main, h0, h1, h2, h3], by omega⟩

/-- C9 witness: channel 0 succeeds with sample 100, channel 1 fails with
errno 5; the demo prints AIN0, reports the AIN1 failure, and exits 5
without touching AIN2 or AIN3. -/
theorem demo_sequential_short_circuit_witness :
    demo_main demoResFailAt1
      = ([DemoEvent.ioctlCall 0, DemoEvent.readout 0 100 (adc_to_vol 100),
          DemoEvent.ioctlCall 1, DemoEvent.reportFail 1, DemoEvent.closeDev], 5)
    ∧ (5 : Nat) ≠ 0 :=
  (demo_sequential_short_circuit demoResFailAt1).2.2.1 100 5 (by decide) rfl rfl

/-- C10: the dispatcher's error classification is false for every possible
value (each errno sentinel is greater than -1000, contradicting
`data < -1000`), so for every recognized command and every bus the ioctl
copies whatever the engine returned — valid sample or bus-error code — to
the caller as the sample and returns 0, or `-EFAULT` when the user-space
copy itself fails. -/
theorem ioctl_error_check_dead :
    (∀ d : Int, errCheck d = false)
    ∧ (∀ (bus : Bus) (cmd mux : Nat), muxForCmd cmd = some mux →
        ads1115_ioctl (some bus) cmd true
          = ((ads1115_read_single_channel (some bus) mux).1, 0,
              some (ads1115_read_single_channel (some bus) mux).2)
        ∧ ads1115_ioctl (some bus) cmd false
          = ((ads1115_read_single_channel (some bus) mux).1, -EFAULT_errno, none)) := by
  refine ⟨errCheck_false, fun bus cmd mux hm => ⟨?_, ?_⟩⟩
  · rw [ioctl_eval bus cmd mux hm true, if_pos rfl]
  · rw [ioctl_eval bus cmd mux hm false, if_neg (by simp)]

/-- C10 witness: the dead check at `-5` and a concrete dispatch of the
AIN0 command on a healthy bus. -/
theorem ioctl_error_check_dead_witness :
    errCheck (-5) = false
    ∧ ads1115_ioctl (some busAllOk) ADS1115_IOCTL_READ_AIN0 true
        = ((ads1115_read_single_channel (some busAllOk) ADS1115_MUX_AIN0_GND).1, 0,
            some (ads1115_read_single_channel (some busAllOk) ADS1115_MUX_AIN0_GND).2) :=
  ⟨ioctl_error_check_dead.1 (-5),
    (ioctl_error_check_dead.2 busAllOk ADS1115_IOCTL_READ_AIN0 ADS1115_MUX_AIN0_GND
      (by decide)).1⟩

end ADS1115
